import Mathlib

/-!
Verification of the masque-go CONNECT-UDP proxy against its specification.

This file shallowly embeds the datagram-forwarding, request-validation and
error-mapping logic of the repository (quic-go/masque-go) and proves the
spec's claims about it. Bytes are modelled as `Nat` (values < 256 on real
inputs), byte strings as `List Nat`.
-/

namespace Masque

/-- QUIC variable-length integer parsing (RFC 9000 §16), modelling
`quicvarint.Parse`: the top two bits of the first byte give the encoded
length `l ∈ {1,2,4,8}`; the value is the remaining 6 bits followed by the
next `l−1` bytes, big-endian. Returns `(value, bytesConsumed)`, or `none`
on an empty or too-short input (`io.EOF` / `io.ErrUnexpectedEOF` in Go). -/
def parseVarint (b : List Nat) : Option (Nat × Nat) :=
  match b with
  | [] => none
  | b0 :: rest =>
    let l := 2 ^ (b0 / 64)
    if rest.length + 1 < l then none
    else some ((rest.take (l - 1)).foldl (fun acc x => acc * 256 + x) (b0 % 64), l)

/-- QUIC variable-length integer encoding, modelling `quicvarint.Append`:
the shortest of the 1/2/4/8-byte encodings that fits the value, appended to
the given byte string. -/
def varintAppend (b : List Nat) (v : Nat) : List Nat :=
  if v ≤ 63 then b ++ [v]
  else if v ≤ 16383 then b ++ [64 + v / 256, v % 256]
  else if v ≤ 1073741823 then
    b ++ [128 + v / 2 ^ 24, v / 2 ^ 16 % 256, v / 2 ^ 8 % 256, v % 256]
  else
    b ++ [192 + v / 2 ^ 56, v / 2 ^ 48 % 256, v / 2 ^ 40 % 256, v / 2 ^ 32 % 256,
          v / 2 ^ 24 % 256, v / 2 ^ 16 % 256, v / 2 ^ 8 % 256, v % 256]

/-- The wire encoding of context ID zero (`contextIDZero` in proxy.go):
`quicvarint.Append([]byte{}, 0)`. -/
def contextIDZero : List Nat := varintAppend [] 0

/-- A UDP address, modelling `net.UDPAddr` (IP as raw bytes, port). -/
structure UDPAddr where
  ip : List Nat
  port : Nat
  deriving DecidableEq, Repr

/-- Modelling `ipVersion`: 4 for a 4-byte IP, 6 otherwise. -/
def ipVersion (ip : List Nat) : Nat := if ip.length = 4 then 4 else 6

/-- Modelling `uncompressedDatagram.Unmarshal` (compression wire format):
`version:u8 | ip:{4,16} | port:u16be | data`. Fails on short input or an
unknown version. -/
def uncompressedDatagramUnmarshal (p : List Nat) : Option (UDPAddr × List Nat) :=
  match p with
  | [] => none
  | version :: rest =>
    if version = 4 then
      if rest.length < 6 then none
      else some (⟨rest.take 4, (rest.drop 4).headI * 256 + (rest.drop 5).headI⟩, rest.drop 6)
    else if version = 6 then
      if rest.length < 18 then none
      else some (⟨rest.take 16, (rest.drop 16).headI * 256 + (rest.drop 17).headI⟩, rest.drop 18)
    else none

/-- Modelling `uncompressedDatagram.Marshal`:
`version:u8 | ip | port:u16be | data`; fails unless the IP is 4 or 16 bytes. -/
def uncompressedDatagramMarshal (addr : UDPAddr) (d : List Nat) : Option (List Nat) :=
  if addr.ip.length ≠ 4 ∧ addr.ip.length ≠ 16 then none
  else some (ipVersion addr.ip :: addr.ip ++ [addr.port % 65536 / 256, addr.port % 256] ++ d)

/-- Modelling `prependContextID`: the varint-encoded context ID followed by
the payload. -/
def prependContextID (p : List Nat) (contextID : Nat) : List Nat :=
  varintAppend [] contextID ++ p

/-- The effect of the proxy's uplink loop body on one HTTP datagram. -/
inductive UplinkAction
  | parseError
  | drop
  | udpWrite (payload : List Nat)
  | udpWriteTo (payload : List Nat) (addr : UDPAddr)
  | unmarshalError
  deriving DecidableEq, Repr

/-- The bytes the uplink action writes to the UDP socket, if any. -/
def UplinkAction.udpBytes : UplinkAction → Option (List Nat)
  | .udpWrite p => some p
  | .udpWriteTo p _ => some p
  | _ => none

/-- One iteration of `Proxy.proxyConnSend` (proxy.go) on a received HTTP
datagram `data`. `lookupContextID` abstracts the compression table
(`none` = not found; `some none` = registered for uncompressed datagrams;
`some (some a)` = registered as compressed to address `a`). On an unbound
flow (`isListening = false`): context ID ≠ 0 is dropped, context ID 0
writes `data[n:]` to the connected UDP socket. -/
def proxyConnSendStep (lookupContextID : Nat → Option (Option UDPAddr))
    (isListening : Bool) (data : List Nat) : UplinkAction :=
  match parseVarint data with
  | none => .parseError
  | some (contextID, n) =>
    if isListening then
      if contextID = 0 then .drop
      else
        match lookupContextID contextID with
        | none => .drop
        | some none =>
          match uncompressedDatagramUnmarshal (data.drop n) with
          | none => .unmarshalError
          | some (addr, d) => .udpWriteTo d addr
        | some (some addr) => .udpWriteTo (data.drop n) addr
    else
      if contextID ≠ 0 then .drop
      else .udpWrite (data.drop n)

/-- The effect of the proxy's downlink loop body on one received UDP packet. -/
inductive DownlinkAction
  | send (data : List Nat)
  | drop
  | marshalError
  deriving DecidableEq, Repr

/-- One iteration of `Proxy.proxyConnReceive` (proxy.go) on a UDP packet
`pkt` (the `n` bytes read into the 1500-byte buffer) from `addr`.
`lookupAddr` abstracts the compression table (`(contextID, isCompressed)`).
On an unbound flow the sent HTTP datagram is `contextIDZero ++ pkt`. -/
def proxyConnReceiveStep (lookupAddr : UDPAddr → Option (Nat × Bool))
    (isListening : Bool) (pkt : List Nat) (addr : UDPAddr) : DownlinkAction :=
  if !isListening then .send (contextIDZero ++ pkt)
  else
    match lookupAddr addr with
    | none => .drop
    | some (contextID, isCompressed) =>
      if !isCompressed then
        match uncompressedDatagramMarshal addr pkt with
        | none => .marshalError
        | some data => .send (prependContextID data contextID)
      else .send (prependContextID pkt contextID)

/-- The outcome of one `proxiedConn.ReadFrom` call (conn.go): either a
successful read `(n, bytes, remoteAddr)` with the datagrams left in the
queue, a malformed-datagram error (returning `n = 0`), or a block (no
datagram available). -/
inductive ReadOutcome
  | ok (n : Nat) (bytes : List Nat) (addr : Option UDPAddr) (rest : List (List Nat))
  | malformedErr (n : Nat) (rest : List (List Nat))
  | blocked
  deriving DecidableEq, Repr

/-- Modelling `proxiedConn.ReadFrom` (conn.go) over the queue of pending
HTTP datagrams: receive the next datagram; if the context-id varint is
malformed, return `(0, malformed-datagram error)`; if the context ID is
not 0, drop the datagram and restart; otherwise copy the payload into the
caller's buffer of `bufLen` bytes (`copy` truncates to the shorter of the
two) and return the pre-supplied remote address. The rest of the current
datagram is discarded: the returned queue no longer contains it. -/
def readFrom (remoteAddr : Option UDPAddr) (bufLen : Nat) :
    List (List Nat) → ReadOutcome
  | [] => .blocked
  | d :: rest =>
    match parseVarint d with
    | none => .malformedErr 0 rest
    | some (contextID, n) =>
      if contextID ≠ 0 then readFrom remoteAddr bufLen rest
      else .ok (min bufLen (d.drop n).length) ((d.drop n).take bufLen) remoteAddr rest

/-- Modelling `proxiedConn.WriteTo` (conn.go): the payload is prepended
with context ID zero and sent as an HTTP datagram; the returned byte count
is the original payload length. -/
def writeTo (p : List Nat) : List Nat × Nat :=
  (contextIDZero ++ p, p.length)

/-- Decimal digit run to value, modelling the digit loop of
`strconv.Atoi` / `strconv.ParseInt`: fails on an empty run or any
non-digit character. -/
def digitsToNat : List Char → Option Nat
  | [] => none
  | cs =>
    cs.foldl
      (fun acc c =>
        match acc with
        | none => none
        | some v => if c.isDigit then some (v * 10 + (c.toNat - 48)) else none)
      (some 0)

/-- Modelling `strconv.Atoi` (64-bit `int`): optional leading sign, at
least one decimal digit, every character a digit, and the value must fit a
signed 64-bit integer; `none` on any syntax or range error. -/
def atoi (s : String) : Option Int :=
  match s.data with
  | [] => none
  | c :: cs =>
    let signed := if c == '-' || c == '+' then (c == '-', cs) else (false, c :: cs)
    match digitsToNat signed.2 with
    | none => none
    | some v =>
      if signed.1 then
        if (v : Int) ≤ 2 ^ 63 then some (-(v : Int)) else none
      else if v < 2 ^ 63 then some (v : Nat) else none

/-- Modelling `unescape` (request.go): replace every occurrence of `%3A`
with `:`. -/
def unescapeChars : List Char → List Char
  | [] => []
  | '%' :: '3' :: 'A' :: rest => ':' :: unescapeChars rest
  | c :: rest => c :: unescapeChars rest

/-- The request fields `ParseRequest` inspects; the Capsule-Protocol
header is abstracted as the result of `httpsfv.UnmarshalItem`
(`none` = header absent, `some none` = present but not a boolean item,
`some (some b)` = boolean item `b`). -/
structure HTTPRequest where
  method : String
  proto : String
  capsuleHeader : Option (Option Bool)
  deriving DecidableEq, Repr

/-- The `target_host` / `target_port` variables extracted by matching the
URI template against the request URL (external collaborator). -/
structure TemplateMatch where
  targetHost : String
  targetPort : String
  deriving DecidableEq, Repr

/-- Modelling `ParseRequest` (request.go): method must be CONNECT (405),
protocol `connect-udp` (501), Capsule-Protocol header present, a
structured-fields boolean, and true (400); both template variables
non-empty (400); `%3A` in the host unescaped and a colon-containing host
bracketed; the port parsed with `strconv.Atoi` (400 on failure). On
success the target is `host:port`. Errors carry the HTTP status. -/
def parseRequest (r : HTTPRequest) (m : TemplateMatch) : Except Nat String :=
  if r.method ≠ "CONNECT" then .error 405
  else if r.proto ≠ "connect-udp" then .error 501
  else
    match r.capsuleHeader with
    | none => .error 400
    | some none => .error 400
    | some (some v) =>
      if !v then .error 400
      else
        let targetHost := ⟨unescapeChars m.targetHost.data⟩
        if targetHost = "" ∨ m.targetPort = "" then .error 400
        else
          let targetHost :=
            if targetHost.data.contains ':' then "[" ++ targetHost ++ "]" else targetHost
          match atoi m.targetPort with
          | none => .error 400
          | some targetPort => .ok (targetHost ++ ":" ++ toString targetPort)

/-- Modelling `net.DNSError` as `ParseRequest`'s callers see it: its
`Timeout()` method returns `IsTimeout`, and `IsNotFound` marks an
NXDOMAIN / negative answer. -/
structure DNSError where
  isTimeout : Bool
  isNotFound : Bool
  deriving DecidableEq, Repr

/-- The error classes `errToStatus` distinguishes via `errors.As`:
a `net.DNSError` (which implements `net.Error` with
`Timeout() = IsTimeout`), a `net.AddrError`, a `net.ParseError`, any
other `net.Error` whose `Timeout()` is true, or anything else. -/
inductive ResolveErr
  | dns (e : DNSError)
  | addrErr
  | parseFailure
  | otherTimeout
  | other
  deriving DecidableEq, Repr

/-- Modelling `errToStatus`: a timing-out `net.Error` maps to 504, a DNS
error to 502, an address or parse error to 400, anything else to 500. -/
def errToStatus : ResolveErr → Nat
  | .dns e => if e.isTimeout then 504 else 502
  | .otherTimeout => 504
  | .addrErr => 400
  | .parseFailure => 400
  | .other => 500

/-- Modelling `dnsErrorToProxyStatus`: the Proxy-Status parameters added
for a DNS resolution failure. On timeout only `error=dns_timeout`;
otherwise `error=dns_error` plus `rcode="Negative response"` when the
lookup was a negative answer and `rcode="SERVFAIL"` otherwise. -/
def dnsErrorToProxyStatus (e : DNSError) : List (String × String) :=
  if e.isTimeout then [("error", "dns_timeout")]
  else
    ("error", "dns_error") ::
      [("rcode", if e.isNotFound then "Negative response" else "SERVFAIL")]

/-- The response the proxy writes on a failed request: the HTTP status
and the Proxy-Status parameter list. -/
structure ProxyFailureResponse where
  status : Nat
  proxyStatusParams : List (String × String)
  deriving DecidableEq, Repr

/-- Modelling the DNS-failure path of `Proxy.Proxy`: on a
`net.ResolveUDPAddr` failure that is a `net.DNSError`, the proxy adds the
`dnsErrorToProxyStatus` parameters, then `details=<error message>`, and
writes the `errToStatus` HTTP status. -/
def proxyDNSFailure (e : DNSError) (msg : String) : ProxyFailureResponse :=
  { status := errToStatus (.dns e)
    proxyStatusParams := dnsErrorToProxyStatus e ++ [("details", msg)] }

/-- The deadline state of a `proxiedConn` that the read path consults:
the stored read deadline (time modelled as an integer instant; the Go
zero time is irrelevant to the wake-up check, which only compares
`time.Now().Before(c.deadline)`). -/
structure ConnDeadlineState where
  deadline : Int
  deriving DecidableEq, Repr

/-- Modelling the unconditional `c.deadline = t` store at the top of
`proxiedConn.SetReadDeadline` (conn.go): the stored deadline is always
replaced by the new value, under the deadline lock. -/
def setReadDeadlineStored (_ : ConnDeadlineState) (t : Int) : ConnDeadlineState :=
  { deadline := t }

/-- The result `str.ReceiveDatagram(ctx)` hands back to `ReadFrom`. -/
inductive RecvResult
  | ok (data : List Nat)
  | canceled
  | otherErr
  deriving DecidableEq, Repr

/-- What `proxiedConn.ReadFrom` does upon waking from
`ReceiveDatagram`. -/
inductive WakeAction
  | deliver (data : List Nat)
  | fail
  | restart
  | deadlineExceeded
  deriving DecidableEq, Repr

/-- Modelling the wake-up handling in `proxiedConn.ReadFrom` (conn.go):
a non-cancellation error is returned as-is; data is delivered; on
`context.Canceled` the reader takes the deadline lock and restarts the
receive iff `time.Now().Before(c.deadline)`, returning
`os.ErrDeadlineExceeded` otherwise. -/
def readFromWake (recv : RecvResult) (now deadline : Int) : WakeAction :=
  match recv with
  | .ok data => .deliver data
  | .otherErr => .fail
  | .canceled => if now < deadline then .restart else .deadlineExceeded

/-- Modelling `netip.Prefix.Masked` on raw address bytes: keep the first
`plen` bits of the address and zero the rest. -/
def maskedAddr : List Nat → Nat → List Nat
  | [], _ => []
  | b :: rest, plen =>
    if 8 ≤ plen then b :: maskedAddr rest (plen - 8)
    else b / 2 ^ (8 - plen) * 2 ^ (8 - plen) :: maskedAddr rest 0

/-- Lexicographic byte-string order on equal-length addresses, modelling
`netip.Addr.Compare` within one address family:
`bytesLE a b = true` iff `a.Compare(b) ≤ 0`. -/
def bytesLE : List Nat → List Nat → Bool
  | [], _ => true
  | _ :: _, [] => true
  | a :: as, b :: bs => if a < b then true else if b < a then false else bytesLE as bs

/-- Modelling `parseAddress` (capsule codec): read the request-id varint,
an IP version byte (4 or 6), the 4- or 16-byte address, and a prefix
length byte; fail if the prefix length exceeds the address bit length or
if any address bit below the prefix length is nonzero
(`prefix != prefix.Masked()`). Returns
`(requestID, (ipVersion, addr, prefixLen), remaining bytes)`. -/
def parseAddress (l : List Nat) : Option (Nat × (Nat × List Nat × Nat) × List Nat) :=
  match parseVarint l with
  | none => none
  | some (requestID, n) =>
    match l.drop n with
    | [] => none
    | v :: l2 =>
      match (if v = 4 then some 4 else if v = 6 then some 16 else none : Option Nat) with
      | none => none
      | some k =>
        if l2.length < k then none
        else
          let addr := l2.take k
          match l2.drop k with
          | [] => none
          | plen :: l3 =>
            if 8 * k < plen then none
            else if addr ≠ maskedAddr addr plen then none
            else some (requestID, (v, addr, plen), l3)

/-- Modelling `parseIPAddressRange` (capsule codec): read an IP version
byte (4 or 6), the start and end addresses (4 or 16 bytes each), and a
protocol byte; fail if `start.Compare(end) > 0` in network byte order.
Returns `((ipVersion, start, end, ipProtocol), remaining bytes)`. -/
def parseIPAddressRange (l : List Nat) :
    Option ((Nat × List Nat × List Nat × Nat) × List Nat) :=
  match l with
  | [] => none
  | v :: l1 =>
    match (if v = 4 then some 4 else if v = 6 then some 16 else none : Option Nat) with
    | none => none
    | some k =>
      if l1.length < k then none
      else
        let start := l1.take k
        let l2 := l1.drop k
        if l2.length < k then none
        else
          let stop := l2.take k
          if !bytesLE start stop then none
          else
            match l2.drop k with
            | [] => none
            | proto :: l3 => some ((v, start, stop, proto), l3)

/-- An externally visible action of a `Proxy` entry check. -/
inductive ProxyEffect
  | writeHeader (status : Nat)
  | closeSocket
  deriving DecidableEq, Repr

/-- The outcome of the closed-flag check at the top of a `Proxy` method:
either the call is rejected (performing the listed effects in order and
returning `net.ErrClosed`) or it proceeds. -/
inductive EntryOutcome
  | rejectedClosed (effects : List ProxyEffect)
  | proceed
  deriving DecidableEq, Repr

/-- The effects performed by the entry check. -/
def EntryOutcome.effects : EntryOutcome → List ProxyEffect
  | .rejectedClosed es => es
  | .proceed => []

/-- Modelling the closed-flag check at the top of `Proxy.Proxy`
(proxy.go): if the closed flag is set, write 503 Service Unavailable
and return `net.ErrClosed`; no socket has been opened at this point. -/
def proxyClosedCheck (closed : Bool) : EntryOutcome :=
  if closed then .rejectedClosed [.writeHeader 503] else .proceed

/-- Modelling the closed-flag check at the top of
`Proxy.proxyConnectedSocket` (proxy.go, reached from
`ProxyConnectedSocket`): if the closed flag is set, close the
caller-supplied UDP socket, write 503 Service Unavailable, and return
`net.ErrClosed`. -/
def proxyConnectedSocketClosedCheck (closed : Bool) : EntryOutcome :=
  if closed then .rejectedClosed [.closeSocket, .writeHeader 503] else .proceed

/-- The environment of one execution of the client's dial-once body: the
effective `EnableDatagrams` flag of the QUIC config (after defaulting)
and whether `quic.DialAddr` would succeed. -/
structure DialEnv where
  datagramsEnabled : Bool
  quicDialOk : Bool
  deriving DecidableEq, Repr

/-- The errors the dial-once body can store in `c.dialErr`. -/
inductive DialError
  | datagramsDisabled
  | quicDialFailed
  deriving DecidableEq, Repr

/-- The memoized dial state of a `Client` (client.go): whether
`dialOnce` has fired, the stored `dialErr`, whether a QUIC connection
was established, and how many times `quic.DialAddr` was attempted. -/
structure ClientOnceState where
  dialDone : Bool
  dialErr : Option DialError
  connEstablished : Bool
  quicDialCount : Nat
  deriving DecidableEq, Repr

/-- A fresh `Client` before any dial. -/
def initialClientState : ClientOnceState :=
  { dialDone := false, dialErr := none, connEstablished := false, quicDialCount := 0 }

/-- Modelling the body of `c.dialOnce.Do` in `Client.dial` (client.go):
if datagrams are disabled in the effective config, store
`datagramsDisabled` without dialing; otherwise attempt the QUIC dial,
storing `quicDialFailed` on failure and the connection on success. -/
def dialOnceBody (env : DialEnv) (s : ClientOnceState) : ClientOnceState :=
  if !env.datagramsEnabled then { s with dialErr := some .datagramsDisabled }
  else if !env.quicDialOk then
    { s with quicDialCount := s.quicDialCount + 1, dialErr := some .quicDialFailed }
  else { s with quicDialCount := s.quicDialCount + 1, connEstablished := true }

/-- Modelling one `Client.dial` call up to the dial-error check
(client.go): run the once-body only if it has not run before, then
return `c.dialErr` (a `some` value aborts the call). -/
def clientDialStep (env : DialEnv) (s : ClientOnceState) :
    ClientOnceState × Option DialError :=
  let s1 := if s.dialDone then s else { dialOnceBody env s with dialDone := true }
  (s1, s1.dialErr)

/-! Theorems -/

/-- C1: on the uplink of an unbound proxied flow, once the leading
context-id varint of a received HTTP datagram parses, a nonzero context
ID makes the proxy drop the datagram silently (nothing is written to the
UDP socket), and context ID 0 makes it write exactly the bytes following
the varint to the UDP socket. -/
theorem uplink_unbound_contextID_routing
    (lookup : Nat → Option (Option UDPAddr)) (data : List Nat) (cid n : Nat)
    (h : parseVarint data = some (cid, n)) :
    (cid ≠ 0 → proxyConnSendStep lookup false data = .drop ∧
      (proxyConnSendStep lookup false data).udpBytes = none) ∧
    (cid = 0 → proxyConnSendStep lookup false data = .udpWrite (data.drop n) ∧
      (proxyConnSendStep lookup false data).udpBytes = some (data.drop n)) := by
  unfold proxyConnSendStep
  rw [h]
  by_cases hc : cid = 0 <;> simp [hc, UplinkAction.udpBytes]

/-- Witness for C1: the concrete datagram `0x00 0x2A` is written as the
single payload byte `0x2A`. -/
theorem uplink_unbound_contextID_routing_witness :
    proxyConnSendStep (fun _ => none) false [0, 42] = .udpWrite [42] :=
  ((uplink_unbound_contextID_routing (fun _ => none) [0, 42] 0 1 rfl).2 rfl).1

/-- C2: on an unbound flow, for every UDP packet of at most 1500 bytes
read by the proxy's downlink, the HTTP datagram sent on the request
stream is the single byte `0x00` followed by the packet. -/
theorem downlink_unbound_prepends_zero
    (lookup : UDPAddr → Option (Nat × Bool)) (pkt : List Nat) (addr : UDPAddr)
    (_hlen : pkt.length ≤ 1500) :
    proxyConnReceiveStep lookup false pkt addr = .send (0 :: pkt) := by
  simp [proxyConnReceiveStep, contextIDZero, varintAppend]

/-- Witness for C2: the packet `[7, 8]` becomes the datagram `[0, 7, 8]`. -/
theorem downlink_unbound_prepends_zero_witness :
    proxyConnReceiveStep (fun _ => none) false [7, 8] ⟨[127, 0, 0, 1], 53⟩ =
      .send [0, 7, 8] :=
  downlink_unbound_prepends_zero (fun _ => none) [7, 8] ⟨[127, 0, 0, 1], 53⟩ (by decide)

/-- C3: reading a context-ID-0 datagram whose payload has more bytes than
the caller's buffer returns exactly the buffer-many leading payload bytes
together with the pre-supplied remote address; the rest of the datagram is
discarded — the queue handed to the next read no longer contains it. -/
theorem readFrom_truncates
    (ra : Option UDPAddr) (d : List Nat) (rest : List (List Nat)) (n m : Nat)
    (h : parseVarint d = some (0, n)) (hm : m < (d.drop n).length) :
    readFrom ra m (d :: rest) = .ok m ((d.drop n).take m) ra rest ∧
    ((d.drop n).take m).length = m := by
  constructor
  · unfold readFrom
    rw [h]
    show (if (0 : Nat) ≠ 0 then _ else _) = _
    rw [if_neg (by decide), Nat.min_eq_left (Nat.le_of_lt hm)]
  · rw [List.length_take]
    omega

/-- Witness for C3: a 3-byte payload read into a 2-byte buffer yields the
first 2 bytes and leaves no residual. -/
theorem readFrom_truncates_witness :
    readFrom (some ⟨[10, 0, 0, 1], 443⟩) 2 [[0, 1, 2, 3]] =
      .ok 2 [1, 2] (some ⟨[10, 0, 0, 1], 443⟩) [] :=
  (readFrom_truncates (some ⟨[10, 0, 0, 1], 443⟩) [0, 1, 2, 3] [] 1 2 rfl (by decide)).1

/-- C9: when the leading context-id varint of a received datagram is
malformed, `ReadFrom` does not drop it and retry: it returns `n = 0` with
the malformed-datagram error. -/
theorem readFrom_malformed_returns_error
    (ra : Option UDPAddr) (bufLen : Nat) (d : List Nat) (rest : List (List Nat))
    (h : parseVarint d = none) :
    readFrom ra bufLen (d :: rest) = .malformedErr 0 rest := by
  unfold readFrom
  rw [h]

/-- Witness for C9: a one-byte datagram announcing a two-byte varint is
malformed and surfaces as an error, even with another datagram queued. -/
theorem readFrom_malformed_returns_error_witness :
    readFrom none 10 [[64], [0, 1]] = .malformedErr 0 [[0, 1]] :=
  readFrom_malformed_returns_error none 10 [64] [[0, 1]] rfl

/-- Counterexample to C4: `ParseRequest` accepts the out-of-range
`target_port` string `"70000"` (there is no range check against
`[0, 65535]`; the port is only required to parse with `strconv.Atoi`),
so the claim that every out-of-range port yields a 400 is false. -/
theorem parseRequest_accepts_port_70000 :
    parseRequest ⟨"CONNECT", "connect-udp", some (some true)⟩
        ⟨"example.org", "70000"⟩ = .ok "example.org:70000" ∧
    (65535 : Int) < 70000 := by
  constructor
  · rfl
  · decide

/-- C4 (amended): for an otherwise valid request, `ParseRequest` accepts
every `target_port` string that `strconv.Atoi` parses — including values
outside `[0, 65535]` — and returns a 400 `RequestParseError` exactly for
strings `Atoi` rejects. In particular every decimal integer in
`[0, 65535]` is accepted. -/
theorem parseRequest_port_atoi_only (portStr : String) :
    (∀ v : Int, atoi portStr = some v →
      parseRequest ⟨"CONNECT", "connect-udp", some (some true)⟩
          ⟨"example.org", portStr⟩ = .ok ("example.org:" ++ toString v)) ∧
    (atoi portStr = none →
      parseRequest ⟨"CONNECT", "connect-udp", some (some true)⟩
          ⟨"example.org", portStr⟩ = .error 400) := by
  have hred : parseRequest ⟨"CONNECT", "connect-udp", some (some true)⟩
      ⟨"example.org", portStr⟩ =
      (if (String.mk (unescapeChars "example.org".data)) = "" ∨ portStr = "" then
        Except.error 400
      else
        match atoi portStr with
        | none => Except.error 400
        | some p => Except.ok ("example.org" ++ ":" ++ toString p)) := rfl
  constructor
  · intro v hv
    by_cases hp : portStr = ""
    · rw [hp] at hv
      simp [atoi] at hv
    · rw [hred, if_neg (not_or.mpr ⟨by decide, hp⟩), hv]
      rfl
  · intro hv
    by_cases hp : portStr = ""
    · rw [hred, if_pos (Or.inr hp)]
    · rw [hred, if_neg (not_or.mpr ⟨by decide, hp⟩), hv]

/-- Witness for C4 (amended): the in-range port `"8080"` is accepted and
assembled into the target. -/
theorem parseRequest_port_atoi_only_witness :
    parseRequest ⟨"CONNECT", "connect-udp", some (some true)⟩
        ⟨"example.org", "8080"⟩ = .ok ("example.org:" ++ toString (8080 : Int)) :=
  (parseRequest_port_atoi_only "8080").1 8080 rfl

/-- C5: on a DNS resolution failure the proxy writes 504 when the failure
is a timeout and 502 otherwise; the Proxy-Status error parameter is
`dns_timeout` on timeout and `dns_error` otherwise, the latter with
`rcode "Negative response"` for a not-found result and `rcode "SERVFAIL"`
for other DNS errors. -/
theorem dns_failure_status_and_proxy_status (e : DNSError) (msg : String) :
    (e.isTimeout = true →
      (proxyDNSFailure e msg).status = 504 ∧
      ("error", "dns_timeout") ∈ (proxyDNSFailure e msg).proxyStatusParams) ∧
    (e.isTimeout = false →
      (proxyDNSFailure e msg).status = 502 ∧
      ("error", "dns_error") ∈ (proxyDNSFailure e msg).proxyStatusParams ∧
      (e.isNotFound = true →
        ("rcode", "Negative response") ∈ (proxyDNSFailure e msg).proxyStatusParams) ∧
      (e.isNotFound = false →
        ("rcode", "SERVFAIL") ∈ (proxyDNSFailure e msg).proxyStatusParams)) := by
  obtain ⟨t, nf⟩ := e
  cases t <;> cases nf <;>
    simp [proxyDNSFailure, errToStatus, dnsErrorToProxyStatus]

/-- Witness for C5: a concrete DNS timeout yields status 504 with
`error=dns_timeout`. -/
theorem dns_failure_status_and_proxy_status_witness :
    (proxyDNSFailure ⟨true, false⟩ "lookup timed out").status = 504 ∧
    ("error", "dns_timeout") ∈
      (proxyDNSFailure ⟨true, false⟩ "lookup timed out").proxyStatusParams :=
  (dns_failure_status_and_proxy_status ⟨true, false⟩ "lookup timed out").1 rfl

/-- C6: after `SetReadDeadline t1` then `SetReadDeadline t2` with
`t2 > t1`, the stored deadline is `t2`, so a read woken by cancellation at
any instant before `t2` restarts the receive rather than returning
deadline-exceeded; in general a cancellation is treated as a timeout
exactly when the current time is not before the stored deadline (checked
under the deadline lock). -/
theorem read_deadline_extension_restarts
    (s0 : ConnDeadlineState) (t1 t2 now : Int) (_h12 : t1 < t2) (hnow : now < t2) :
    readFromWake .canceled now
        ((setReadDeadlineStored (setReadDeadlineStored s0 t1) t2).deadline) = .restart ∧
    (∀ d : Int, readFromWake .canceled now d = .deadlineExceeded ↔ ¬now < d) := by
  constructor
  · simp [readFromWake, setReadDeadlineStored, hnow]
  · intro d
    by_cases hd : now < d <;> simp [readFromWake, hd]

/-- Witness for C6: with deadlines 1 then 5 and a wake at time 3, the
receive is restarted. -/
theorem read_deadline_extension_restarts_witness :
    readFromWake .canceled 3
        ((setReadDeadlineStored (setReadDeadlineStored ⟨0⟩ 1) 5).deadline) = .restart :=
  (read_deadline_extension_restarts ⟨0⟩ 1 5 3 (by decide) (by decide)).1

/-- C8 counterexample: when the closed flag is set at entry,
`proxyConnectedSocket` (reached from `ProxyConnectedSocket`) closes the
caller-supplied UDP socket, so the call does not leave every socket
untouched. -/
theorem closed_proxyConnectedSocket_touches_socket :
    ProxyEffect.closeSocket ∈ (proxyConnectedSocketClosedCheck true).effects := by
  decide

/-- C8 (amended): a `Proxy` or `ProxyConnectedSocket` call that observes
the closed flag at entry writes 503 Service Unavailable and returns
`net.ErrClosed`; `Proxy` performs no socket operation (none is open yet),
while `ProxyConnectedSocket` first closes the caller-supplied UDP
socket. -/
theorem closed_proxy_rejects_with_503 :
    proxyClosedCheck true = .rejectedClosed [.writeHeader 503] ∧
    proxyConnectedSocketClosedCheck true =
      .rejectedClosed [.closeSocket, .writeHeader 503] ∧
    (proxyClosedCheck true).effects.filter (· = .closeSocket) = [] ∧
    proxyClosedCheck false = .proceed ∧
    proxyConnectedSocketClosedCheck false = .proceed := by
  decide

/-- C7: every assigned/requested address entry the capsule codec parses
satisfies `prefix_len ≤ 8·addr_len` (32 bits for IPv4, 128 for IPv6) with
all address bits below the prefix length zero, and every parsed IP
address range satisfies `start ≤ end` in network byte order; any
violation makes the parse fail. -/
theorem typed_capsule_validation :
    (∀ l rid v addr plen rest,
      parseAddress l = some (rid, (v, addr, plen), rest) →
        plen ≤ 8 * addr.length ∧ addr = maskedAddr addr plen) ∧
    (∀ l v s e p rest,
      parseIPAddressRange l = some ((v, s, e, p), rest) → bytesLE s e = true) := by
  constructor
  · intro l rid v addr plen rest h
    unfold parseAddress at h
    try dsimp only at h
    repeat' split at h
    all_goals try exact Option.noConfusion h
    simp only [Option.some.injEq, Prod.mk.injEq] at h
    obtain ⟨h1, ⟨h2, h3, h4⟩, h5⟩ := h
    subst h3 h4
    refine ⟨by rw [List.length_take]; omega, ?_⟩
    by_contra hne
    simp_all
  · intro l v s e p rest h
    unfold parseIPAddressRange at h
    try dsimp only at h
    repeat' split at h
    all_goals try exact Option.noConfusion h
    simp only [Option.some.injEq, Prod.mk.injEq] at h
    obtain ⟨⟨h1, h2, h3, h4⟩, h5⟩ := h
    subst h2 h3
    simp_all

/-- Witness for C7: a /8 IPv4 address entry and a one-address IPv4 range
both parse and satisfy the invariants. -/
theorem typed_capsule_validation_witness :
    (8 ≤ 8 * [10, 0, 0, 0].length ∧
      [10, 0, 0, 0] = maskedAddr [10, 0, 0, 0] 8) ∧
    bytesLE [10, 0, 0, 1] [10, 0, 0, 1] = true :=
  ⟨typed_capsule_validation.1 [2, 4, 10, 0, 0, 0, 8] 2 4 [10, 0, 0, 0] 8 [] rfl,
   typed_capsule_validation.2 [4, 10, 0, 0, 1, 10, 0, 0, 1, 17] 4
     [10, 0, 0, 1] [10, 0, 0, 1] 17 [] rfl⟩

/-- C10: if the first dial attempt fails inside the once-guard (datagrams
disabled in the config, or the QUIC dial failing), every later
`Dial`/`DialAddr` call returns the same stored error, leaves the client
state unchanged, and never attempts another QUIC connection. -/
theorem dial_error_memoized (env1 env2 : DialEnv) (e : DialError)
    (h : (clientDialStep env1 initialClientState).2 = some e) :
    (clientDialStep env2 (clientDialStep env1 initialClientState).1).2 = some e ∧
    (clientDialStep env2 (clientDialStep env1 initialClientState).1).1 =
      (clientDialStep env1 initialClientState).1 ∧
    (clientDialStep env2 (clientDialStep env1 initialClientState).1).1.quicDialCount =
      (clientDialStep env1 initialClientState).1.quicDialCount := by
  obtain ⟨dg, q⟩ := env1
  cases dg <;> cases q <;>
    simp_all [clientDialStep, dialOnceBody, initialClientState]

/-- Witness for C10: a first dial with datagrams disabled stores the
error, and a second dial in a fully healthy environment still returns
it. -/
theorem dial_error_memoized_witness :
    (clientDialStep ⟨true, true⟩ (clientDialStep ⟨false, true⟩ initialClientState).1).2 =
      some .datagramsDisabled :=
  (dial_error_memoized ⟨false, true⟩ ⟨true, true⟩ .datagramsDisabled rfl).1

end Masque
